import Mathlib

set_option maxRecDepth 100000

/-!
Shallow embedding of the multi-model research orchestration core of the
Eachie repository: the `runResearch` fan-out/synthesis function (library
variant with BYOK support and per-model pricing) and the pricing module
(`src/lib/pricing.ts`).

The upstream model gateway (`generateText`) is modelled as an oracle
`Gateway : GenOptions → CallOutcome` supplied by the environment; wall-clock
readings (`Date.now()` differences, ISO timestamps) are likewise supplied by
an `Env` value.  `runResearch` is embedded as a pure function of the
environment, the gateway oracle and the request, additionally returning the
ordered trace of gateway calls it issued so that call-count properties can
be stated.
-/

namespace Research

/-- JavaScript truthiness of an optional string: truthy iff present and
non-empty (embeds `s || t` fallback chains on string-typed values). -/
def strTruthy : Option String → Bool
  | some s => s ≠ ""
  | none => false

/-- Embeds `a || b` where `a` is an optional string and `b` a string. -/
def jsOr (a : Option String) (b : String) : String :=
  if strTruthy a then a.getD b else b

/-- `ResearchImage`: base64 payload plus MIME type. -/
structure ResearchImage where
  base64 : String
  mimeType : String
  deriving DecidableEq, Repr

/-- `ResearchRequest`: input to a research round. Optional TS fields are
`Option`s; `byokMode` defaults to `false` (JS `undefined` is falsy). -/
structure ResearchRequest where
  query : String
  images : Option (List ResearchImage) := none
  modelIds : Option (List String) := none
  orchestratorId : Option String := none
  apiKey : Option String := none
  byokMode : Bool := false
  deriving DecidableEq, Repr

/-- Token usage as normalised inside `runResearch`. -/
structure Usage where
  promptTokens : Nat
  completionTokens : Nat
  totalTokens : Nat
  deriving DecidableEq, Repr

/-- `ModelResponse`: the outcome of one model within a round. -/
structure ModelResponse where
  model : String
  modelId : String
  content : String
  success : Bool
  error : Option String := none
  durationMs : Option Nat := none
  usage : Option Usage := none
  cost : Option ℚ := none
  deriving DecidableEq, Repr

/-- `ResearchResult`: the aggregate of the round. -/
structure ResearchResult where
  query : String
  responses : List ModelResponse
  synthesis : String
  totalDurationMs : Nat
  modelCount : Nat
  successCount : Nat
  totalCost : Option ℚ := none
  timestamp : Option String := none
  orchestrator : Option String := none
  deriving DecidableEq, Repr

/-- Reasoning configuration variants of a model config. -/
inductive Reasoning where
  | low
  | high
  | enabled
  deriving DecidableEq, Repr

/-- `ModelConfig`: one entry of the static model catalog. -/
structure ModelConfig where
  id : String
  name : String
  description : String
  provider : String
  supportsVision : Bool
  cost : Nat
  reasoning : Option Reasoning := none
  deriving DecidableEq, Repr

/-- `ALL_MODELS`: the static catalog of available models. -/
def ALL_MODELS : List ModelConfig := [
  { id := "anthropic/claude-opus-4.5:online", name := "Claude Opus 4.5", description := "Top reasoning & writing", provider := "Anthropic", supportsVision := true, cost := 5 },
  { id := "anthropic/claude-sonnet-4.5:online", name := "Claude Sonnet 4.5", description := "Best all-rounder", provider := "Anthropic", supportsVision := true, cost := 3 },
  { id := "anthropic/claude-haiku-4.5:online", name := "Claude Haiku 4.5", description := "Fast & economical", provider := "Anthropic", supportsVision := true, cost := 1 },
  { id := "openai/gpt-5.1:online", name := "GPT-5.1", description := "High reasoning depth", provider := "OpenAI", supportsVision := true, cost := 4, reasoning := some .high },
  { id := "openai/o3:online", name := "o3 (high)", description := "Top reasoning model", provider := "OpenAI", supportsVision := false, cost := 5, reasoning := some .high },
  { id := "openai/o3-mini:online", name := "o3-mini (low)", description := "STEM-focused, efficient", provider := "OpenAI", supportsVision := false, cost := 2, reasoning := some .low },
  { id := "google/gemini-3-pro-preview:online", name := "Gemini 3 Pro", description := "Top multimodal", provider := "Google", supportsVision := true, cost := 3 },
  { id := "google/gemini-2.5-pro:online", name := "Gemini 2.5 Pro", description := "High-end creative", provider := "Google", supportsVision := true, cost := 3 },
  { id := "google/gemini-2.5-flash:online", name := "Gemini 2.5 Flash", description := "Built-in thinking", provider := "Google", supportsVision := true, cost := 1 },
  { id := "google/gemini-2.0-flash:online", name := "Gemini 2.0 Flash", description := "Fastest & cheapest", provider := "Google", supportsVision := true, cost := 0 },
  { id := "perplexity/sonar-deep-research", name := "Perplexity Deep", description := "Exhaustive research", provider := "Perplexity", supportsVision := false, cost := 3 },
  { id := "perplexity/sonar-pro", name := "Perplexity Sonar", description := "Fast search-native", provider := "Perplexity", supportsVision := false, cost := 2 },
  { id := "x-ai/grok-4:online", name := "Grok 4", description := "Creative real-time", provider := "X.AI", supportsVision := true, cost := 2 },
  { id := "x-ai/grok-4.1-fast:online", name := "Grok Fast (thinking)", description := "Fast with reasoning", provider := "X.AI", supportsVision := true, cost := 2, reasoning := some .enabled },
  { id := "deepseek/deepseek-r1:online", name := "DeepSeek R1", description := "Open reasoning champ", provider := "DeepSeek", supportsVision := false, cost := 1 },
  { id := "qwen/qwen3-235b-a22b:online", name := "Qwen3-Max", description := "Multilingual creative", provider := "Alibaba", supportsVision := false, cost := 2 },
  { id := "moonshotai/kimi-k2:online", name := "Kimi K2", description := "Long-context master", provider := "Moonshot", supportsVision := false, cost := 2 },
  { id := "meta-llama/llama-4-maverick:online", name := "Llama 4 Maverick", description := "Open multimodal", provider := "Meta", supportsVision := true, cost := 0 },
  { id := "minimax/minimax-m1-80k:online", name := "MiniMax M1", description := "Extended context", provider := "MiniMax", supportsVision := false, cost := 2 }
]

/-- `DEFAULT_MODELS`: default model selection. -/
def DEFAULT_MODELS : List String := [
  "anthropic/claude-haiku-4.5:online",
  "google/gemini-2.5-flash:online",
  "deepseek/deepseek-r1:online"
]

/-- An orchestrator catalog entry. -/
structure OrchestratorConfig where
  id : String
  name : String
  description : String
  deriving DecidableEq, Repr

/-- `ORCHESTRATOR_MODELS`: available synthesis models. -/
def ORCHESTRATOR_MODELS : List OrchestratorConfig := [
  { id := "anthropic/claude-sonnet-4.5", name := "Claude Sonnet 4.5", description := "Balanced & reliable" },
  { id := "anthropic/claude-opus-4.5", name := "Claude Opus 4.5", description := "Maximum quality" },
  { id := "openai/gpt-5.1", name := "GPT-5.1", description := "Deep reasoning" },
  { id := "google/gemini-3-pro-preview", name := "Gemini 3 Pro", description := "Multimodal synthesis" }
]

/-- `DEFAULT_ORCHESTRATOR`. -/
def DEFAULT_ORCHESTRATOR : String := "anthropic/claude-sonnet-4.5"

/-- Per-model input/output rates per million tokens. -/
structure PricingEntry where
  input : ℚ
  output : ℚ
  deriving DecidableEq, Repr

/-- `MODEL_PRICING` as declared locally in the research library file
(note: keys differ from the pricing-module table for the Grok Fast and
MiniMax entries). -/
def MODEL_PRICING : List (String × PricingEntry) := [
  ("anthropic/claude-opus-4.5:online", ⟨15, 75⟩),
  ("anthropic/claude-sonnet-4.5:online", ⟨3, 15⟩),
  ("anthropic/claude-haiku-4.5:online", ⟨0.25, 1.25⟩),
  ("openai/gpt-5.1:online", ⟨1.25, 10⟩),
  ("openai/o3:online", ⟨10, 40⟩),
  ("openai/o3-mini:online", ⟨0.75, 6⟩),
  ("google/gemini-3-pro-preview:online", ⟨2.5, 10⟩),
  ("google/gemini-2.5-pro:online", ⟨1.25, 5⟩),
  ("google/gemini-2.5-flash:online", ⟨0.15, 0.60⟩),
  ("google/gemini-2.0-flash:online", ⟨0.075, 0.30⟩),
  ("perplexity/sonar-deep-research", ⟨3, 15⟩),
  ("perplexity/sonar-pro", ⟨1, 5⟩),
  ("x-ai/grok-4:online", ⟨1, 5⟩),
  ("x-ai/grok-4.1-fast:online", ⟨0.5, 2⟩),
  ("deepseek/deepseek-r1:online", ⟨0.20, 4.50⟩),
  ("qwen/qwen3-235b-a22b:online", ⟨0.30, 1.49⟩),
  ("moonshotai/kimi-k2:online", ⟨1, 5⟩),
  ("meta-llama/llama-4-maverick:online", ⟨0, 0⟩),
  ("minimax/minimax-m1-80k:online", ⟨0.50, 2⟩)
]

/-- Record-key lookup, embedding `TABLE[modelId]` on a string-keyed record. -/
def lookupPricing (table : List (String × PricingEntry)) (modelId : String) :
    Option PricingEntry :=
  (table.find? (fun p => p.1 = modelId)).map (·.2)

/-- `calculateCost` as declared locally in the research library file:
`0` for missing usage or unknown model, otherwise
`promptTokens/1e6 * input + completionTokens/1e6 * output`. -/
def calculateCost (modelId : String) (usage : Option Usage) : ℚ :=
  match usage with
  | none => 0
  | some u =>
    match lookupPricing MODEL_PRICING modelId with
    | none => 0
    | some pricing =>
      (u.promptTokens : ℚ) / 1000000 * pricing.input +
        (u.completionTokens : ℚ) / 1000000 * pricing.output

end Research

namespace Pricing

/-- `EACHIE_MARGIN` from the pricing module. -/
def EACHIE_MARGIN : ℚ := 0.015

/-- `calculateUserCharge`: raw cost plus margin. -/
def calculateUserCharge (rawCost : ℚ) : ℚ :=
  rawCost * (1 + EACHIE_MARGIN)

/-- `MODEL_PRICING` from `src/lib/pricing.ts` (the consolidated table). -/
def MODEL_PRICING : List (String × Research.PricingEntry) := [
  ("anthropic/claude-opus-4.5:online", ⟨15, 75⟩),
  ("anthropic/claude-sonnet-4.5:online", ⟨3, 15⟩),
  ("anthropic/claude-haiku-4.5:online", ⟨0.25, 1.25⟩),
  ("openai/gpt-5.1:online", ⟨1.25, 10⟩),
  ("openai/o3:online", ⟨10, 40⟩),
  ("openai/o3-mini:online", ⟨0.75, 6⟩),
  ("google/gemini-3-pro-preview:online", ⟨2.5, 10⟩),
  ("google/gemini-2.5-pro:online", ⟨1.25, 5⟩),
  ("google/gemini-2.5-flash:online", ⟨0.15, 0.6⟩),
  ("google/gemini-2.0-flash:online", ⟨0.075, 0.3⟩),
  ("perplexity/sonar-deep-research", ⟨3, 15⟩),
  ("perplexity/sonar-pro", ⟨1, 5⟩),
  ("x-ai/grok-4:online", ⟨1, 5⟩),
  ("x-ai/grok-4.1-fast", ⟨0.5, 2⟩),
  ("deepseek/deepseek-r1:online", ⟨0.2, 4.5⟩),
  ("qwen/qwen3-235b-a22b:online", ⟨0.3, 1.49⟩),
  ("moonshotai/kimi-k2:online", ⟨1, 5⟩),
  ("meta-llama/llama-4-maverick:online", ⟨0, 0⟩),
  ("minimax/minimax-m1", ⟨0.4, 2.2⟩)
]

/-- `findModelPricing`: pricing for a model, `null` (none) if unknown. -/
def findModelPricing (modelId : String) : Option Research.PricingEntry :=
  Research.lookupPricing MODEL_PRICING modelId

/-- `calculateCost` from the pricing module. -/
def calculateCost (modelId : String)
    (usage : Option (Nat × Nat)) : ℚ :=
  match usage with
  | none => 0
  | some (promptTokens, completionTokens) =>
    match findModelPricing modelId with
    | none => 0
    | some pricing =>
      (promptTokens : ℚ) / 1000000 * pricing.input +
        (completionTokens : ℚ) / 1000000 * pricing.output

/-- `CostEstimate`: an estimated cost, flagged as an estimate. -/
structure CostEstimate where
  cost : ℚ
  isEstimate : Bool
  deriving DecidableEq, Repr

/-- `estimateCostFromText`: text-length fallback cost estimate
(`Math.ceil(length / 4)` tokens, rates per million); `none` for unknown
models and for genuinely free models (both rates zero). -/
def estimateCostFromText (modelId inputText outputText : String) :
    Option CostEstimate :=
  match findModelPricing modelId with
  | none => none
  | some pricing =>
    if pricing.input = 0 ∧ pricing.output = 0 then none
    else
      let estimatedInputTokens : Nat := (inputText.length + 3) / 4
      let estimatedOutputTokens : Nat := (outputText.length + 3) / 4
      some { cost := (estimatedInputTokens : ℚ) / 1000000 * pricing.input +
                       (estimatedOutputTokens : ℚ) / 1000000 * pricing.output,
             isEstimate := true }

end Pricing

namespace Research

/-- One part of a multimodal user message. -/
inductive ContentPart where
  | text (t : String)
  | image (dataUri : String)
  deriving DecidableEq, Repr

/-- The content of a message: either a plain string or a list of parts. -/
inductive MessageContent where
  | str (s : String)
  | parts (ps : List ContentPart)
  deriving DecidableEq, Repr

/-- A chat message sent to the gateway. -/
structure Message where
  role : String
  content : MessageContent
  deriving DecidableEq, Repr

/-- `RESEARCH_SYSTEM_PROMPT`: fixed system instructions for fan-out calls. -/
def RESEARCH_SYSTEM_PROMPT : String :=
  "You are an expert research assistant with built-in web search.\n\nGUIDELINES:\n- Search the web for current information when relevant\n- Provide thorough, well-reasoned answers with citations\n- Be direct and confident - ground your response in facts\n- Structure responses clearly\n\nFORMAT:\n- 400-600 words\n- Use markdown: ## headers, **bold**, bullets\n- Cite web sources when using current data\n- End with practical takeaways"

/-- Provider-specific reasoning metadata attached to a gateway call
(`experimental_providerMetadata.openrouter.reasoning`). -/
inductive ReasoningMeta where
  | enabled
  | effort (level : String)
  deriving DecidableEq, Repr

/-- Maps the reasoning configuration of a model to the gateway metadata the
fan-out attaches (`enabled` toggle, or `low`/`high` effort). -/
def reasoningMeta : Option Reasoning → Option ReasoningMeta
  | some .enabled => some .enabled
  | some .low => some (.effort "low")
  | some .high => some (.effort "high")
  | none => none

/-- Options of one `generateText` gateway call. -/
structure GenOptions where
  modelId : String
  messages : List Message
  maxTokens : Nat
  providerMetadata : Option ReasoningMeta := none
  deriving DecidableEq, Repr

/-- Raw token usage as returned by the gateway; fields may be missing. -/
structure RawUsage where
  promptTokens : Option Nat := none
  completionTokens : Option Nat := none
  totalTokens : Option Nat := none
  deriving DecidableEq, Repr

/-- A successful gateway return value. -/
structure GenResult where
  text : String
  usage : Option RawUsage := none
  deriving DecidableEq, Repr

/-- The outcome of one gateway call as the environment determines it: the
returned value or the message of the thrown error, and the wall-clock
duration of the call (`Date.now() - modelStart`). -/
structure CallOutcome where
  result : Except String GenResult
  durationMs : Nat
  deriving Repr

/-- The upstream model gateway, modelled as an oracle from call options to
outcome. -/
def Gateway := GenOptions → CallOutcome

/-- Deployment environment: the server-default key and the wall-clock
readings the round makes. -/
structure Env where
  openrouterApiKey : Option String := none
  roundDurationMs : Nat := 0
  timestampIso : String := ""
  deriving Repr

/-- Fixed error message thrown when no API key resolves. -/
def missingKeyError : String :=
  "API key required. Please add your OpenRouter key in Settings."

/-- Fixed error message thrown when no selected model id is in the catalog. -/
def noValidModelsError : String := "No valid models selected"

/-- Fixed user-facing synthesis string of the all-fail short-circuit. -/
def allFailedSynthesis : String :=
  "All models failed to respond. Please check your API key and try again."

/-- Key resolution: explicit request key if truthy, else (unless BYOK) the
server-default key (`request.apiKey || (byokMode ? undefined : env key)`). -/
def resolveApiKey (env : Env) (request : ResearchRequest) : Option String :=
  if strTruthy request.apiKey then request.apiKey
  else if request.byokMode then none
  else env.openrouterApiKey

/-- `hasImages`: the request has at least one attached image. -/
def hasImages (request : ResearchRequest) : Bool :=
  match request.images with
  | some imgs => imgs.length > 0
  | none => false

/-- Model-id resolution: the list of the request when non-empty, else the
default set (`request.modelIds?.length ? request.modelIds : DEFAULT_MODELS`). -/
def resolveModelIds (request : ResearchRequest) : List String :=
  match request.modelIds with
  | some ids => if ids.length ≠ 0 then ids else DEFAULT_MODELS
  | none => DEFAULT_MODELS

/-- Descriptor resolution: look each resolved id up in the catalog and drop
the ids that are not found. -/
def resolveModels (request : ResearchRequest) : List ModelConfig :=
  (resolveModelIds request).filterMap
    (fun id => ALL_MODELS.find? (fun m => m.id = id))

/-- `buildMessages`: system prompt, then the user message — multimodal
parts when images are attached and the model supports vision, otherwise
plain text with a fallback notice when images were attached. -/
def buildMessages (request : ResearchRequest) (model : ModelConfig) :
    List Message :=
  let sys : Message := { role := "system", content := .str RESEARCH_SYSTEM_PROMPT }
  if hasImages request ∧ model.supportsVision then
    let imgs := request.images.getD []
    let content : List ContentPart :=
      .text request.query ::
        imgs.map (fun img =>
          .image ("data:" ++ img.mimeType ++ ";base64," ++ img.base64))
    [sys, { role := "user", content := .parts content }]
  else
    let text :=
      if hasImages request ∧ ¬model.supportsVision then
        "[Note: " ++ toString (request.images.getD []).length ++
          " image(s) attached but not visible to this model]\n\n" ++ request.query
      else request.query
    [sys, { role := "user", content := .str text }]

/-- The full options of one fan-out gateway call for a model. -/
def callOptions (request : ResearchRequest) (model : ModelConfig) : GenOptions :=
  { modelId := model.id,
    messages := buildMessages request model,
    maxTokens := 2500,
    providerMetadata := reasoningMeta model.reasoning }

/-- Usage normalisation inside the fan-out success branch
(each raw field `|| 0`). -/
def normUsage (u : RawUsage) : Usage :=
  { promptTokens := u.promptTokens.getD 0,
    completionTokens := u.completionTokens.getD 0,
    totalTokens := u.totalTokens.getD 0 }

/-- Converts the gateway outcome of one model into its `ModelResponse`: the
success branch records content, usage and cost; the catch branch records
the error message; both record the duration. -/
def respOf (model : ModelConfig) (out : CallOutcome) : ModelResponse :=
  match out.result with
  | .ok r =>
    let usage := r.usage.map normUsage
    { model := model.name, modelId := model.id, content := r.text,
      success := true, error := none, durationMs := some out.durationMs,
      usage := usage, cost := some (calculateCost model.id usage) }
  | .error e =>
    { model := model.name, modelId := model.id, content := "",
      success := false, error := some e, durationMs := some out.durationMs,
      usage := none, cost := none }

/-- Fan-out: one response per resolved model, in input order, each computed
solely from the own gateway call of that model. -/
def fanOutResponses (gw : Gateway) (request : ResearchRequest) :
    List ModelResponse :=
  (resolveModels request).map (fun m => respOf m (gw (callOptions request m)))

/-- `Array.prototype.join` on a list of strings. -/
def joinSep (sep : String) : List String → String
  | [] => ""
  | [s] => s
  | s :: rest => s ++ sep ++ joinSep sep rest

/-- The synthesis prompt: truncated query, the successful responses as
markdown sections joined by horizontal rules, then the fixed instructions. -/
def mkSynthesisPrompt (query : String) (successful : List ModelResponse) :
    String :=
  "Synthesize these AI model responses to: \"" ++ query.take 200 ++ "\"\n\n" ++
    joinSep "\n\n---\n\n"
      (successful.map (fun r => "### " ++ r.model ++ "\n" ++ r.content)) ++
    "\n\nCreate a synthesis that:\n1. Identifies key consensus points\n2. Highlights disagreements or unique insights  \n3. Provides actionable takeaways\n\nGuidelines:\n- 300-500 words, use markdown formatting\n- Be substantive and specific"

/-- Options of the synthesis gateway call. -/
def orchestratorOptions (orchestratorId : String) (prompt : String) :
    GenOptions :=
  { modelId := orchestratorId,
    messages := [{ role := "user", content := .str prompt }],
    maxTokens := 1500,
    providerMetadata := none }

/-- The ordered options of the fan-out gateway calls of the round. -/
def fanOutCalls (request : ResearchRequest) : List GenOptions :=
  (resolveModels request).map (callOptions request)

/-- The successful subset of the fan-out responses, in order. -/
def successfulOf (gw : Gateway) (request : ResearchRequest) :
    List ModelResponse :=
  (fanOutResponses gw request).filter (fun r => r.success)

/-- The per-response cost total as `runResearch` folds it
(`responses.reduce((sum, r) => sum + (r.cost || 0), 0)`). -/
def costTotal (responses : List ModelResponse) : ℚ :=
  responses.foldl (fun sum r => sum + r.cost.getD 0) 0

/-- The resolved orchestrator id of a request. -/
def resolveOrchestratorId (request : ResearchRequest) : String :=
  jsOr request.orchestratorId DEFAULT_ORCHESTRATOR

/-- The display name of the orchestrator
(`ORCHESTRATOR_MODELS.find(...)?.name || orchestratorId`). -/
def orchestratorDisplayName (orchestratorId : String) : String :=
  jsOr ((ORCHESTRATOR_MODELS.find?
    (fun o => o.id = orchestratorId)).map (·.name)) orchestratorId

/-- The synthesis gateway call of a round: the resolved orchestrator,
the prompt over the successful subset, `maxTokens = 1500`. -/
def synthOptions (gw : Gateway) (request : ResearchRequest) : GenOptions :=
  orchestratorOptions (resolveOrchestratorId request)
    (mkSynthesisPrompt request.query (successfulOf gw request))

/-- `runResearch`, instrumented: returns the result (or the message of the
thrown error) together with the ordered trace of gateway calls issued. -/
def runResearchT (env : Env) (gw : Gateway) (request : ResearchRequest) :
    Except String ResearchResult × List GenOptions :=
  if ¬strTruthy (resolveApiKey env request) then (.error missingKeyError, [])
  else if (resolveModels request).length = 0 then
    (.error noValidModelsError, [])
  else if (successfulOf gw request).length = 0 then
    (.ok { query := request.query, responses := fanOutResponses gw request,
           synthesis := allFailedSynthesis,
           totalDurationMs := env.roundDurationMs,
           modelCount := (resolveModels request).length, successCount := 0,
           totalCost := none, timestamp := some env.timestampIso,
           orchestrator := some (resolveOrchestratorId request) },
     fanOutCalls request)
  else
    match (gw (synthOptions gw request)).result with
    | .error e => (.error e, fanOutCalls request ++ [synthOptions gw request])
    | .ok synthesisResult =>
      (.ok { query := request.query, responses := fanOutResponses gw request,
             synthesis := synthesisResult.text,
             totalDurationMs := env.roundDurationMs,
             modelCount := (resolveModels request).length,
             successCount := (successfulOf gw request).length,
             totalCost := some (costTotal (fanOutResponses gw request)),
             timestamp := some env.timestampIso,
             orchestrator :=
               some (orchestratorDisplayName (resolveOrchestratorId request)) },
       fanOutCalls request ++ [synthOptions gw request])

/-- `runResearch`: the public operation (the instrumented run, without the
call trace). -/
def runResearch (env : Env) (gw : Gateway) (request : ResearchRequest) :
    Except String ResearchResult :=
  (runResearchT env gw request).1

/-- Whether a gateway result is a thrown error. -/
def isError : Except String GenResult → Bool
  | .error _ => true
  | .ok _ => false

/-- `small` occurs as a contiguous substring of `big`. -/
def containsStr (big small : String) : Prop :=
  ∃ pre post, big = pre ++ small ++ post

end Research

namespace Fx

open Research

/-- Catalog entry of Claude Haiku, for concrete runs. -/
def haikuCfg : ModelConfig :=
  { id := "anthropic/claude-haiku-4.5:online", name := "Claude Haiku 4.5",
    description := "Fast & economical", provider := "Anthropic",
    supportsVision := true, cost := 1 }

/-- Catalog entry of Gemini 2.5 Flash, for concrete runs. -/
def flashCfg : ModelConfig :=
  { id := "google/gemini-2.5-flash:online", name := "Gemini 2.5 Flash",
    description := "Built-in thinking", provider := "Google",
    supportsVision := true, cost := 1 }

/-- Catalog entry of DeepSeek R1 (no vision support), for concrete runs. -/
def r1Cfg : ModelConfig :=
  { id := "deepseek/deepseek-r1:online", name := "DeepSeek R1",
    description := "Open reasoning champ", provider := "DeepSeek",
    supportsVision := false, cost := 1 }

/-- A deployment environment with a server-default key. -/
def env : Env :=
  { openrouterApiKey := some "server-key", roundDurationMs := 7,
    timestampIso := "2026-01-01T00:00:00.000Z" }

/-- A deployment environment with no server-default key. -/
def envNoKey : Env :=
  { openrouterApiKey := none, roundDurationMs := 7,
    timestampIso := "2026-01-01T00:00:00.000Z" }

/-- A gateway return value with usage data. -/
def okGenResult : GenResult :=
  { text := "ok text",
    usage := some { promptTokens := some 100, completionTokens := some 50,
                    totalTokens := some 150 } }

/-- A successful gateway outcome with usage data. -/
def okOutcome : CallOutcome :=
  { result := .ok okGenResult, durationMs := 5 }

/-- A gateway return value without usage data. -/
def okNoUsageGenResult : GenResult :=
  { text := "Hello world!", usage := none }

/-- A successful gateway outcome without usage data. -/
def okNoUsageOutcome : CallOutcome :=
  { result := .ok okNoUsageGenResult, durationMs := 5 }

/-- A failing gateway outcome. -/
def failOutcome : CallOutcome :=
  { result := .error "boom", durationMs := 3 }

/-- A gateway where every call succeeds with usage. -/
def gwAllOk : Gateway := fun _ => okOutcome

/-- A gateway where every call succeeds without usage. -/
def gwOkNoUsage : Gateway := fun _ => okNoUsageOutcome

/-- A gateway where every call fails. -/
def gwAllFail : Gateway := fun _ => failOutcome

/-- A request selecting just Claude Haiku. -/
def reqHaiku : ResearchRequest :=
  { query := "hi", modelIds := some ["anthropic/claude-haiku-4.5:online"],
    apiKey := some "k" }

/-- A request whose first selected id is unknown to the catalog. -/
def reqBogus : ResearchRequest :=
  { query := "hi",
    modelIds := some ["bogus", "anthropic/claude-haiku-4.5:online"],
    apiKey := some "k" }

/-- A request selecting Haiku then Flash. -/
def req2 : ResearchRequest :=
  { query := "hi",
    modelIds := some ["anthropic/claude-haiku-4.5:online",
                      "google/gemini-2.5-flash:online"],
    apiKey := some "k" }

/-- A request with two images attached. -/
def req2Img : ResearchRequest :=
  { query := "what is this",
    images := some [{ base64 := "AAAA", mimeType := "image/png" },
                    { base64 := "BBBB", mimeType := "image/jpeg" }],
    modelIds := some ["anthropic/claude-haiku-4.5:online"],
    apiKey := some "k" }

/-- A BYOK request carrying an empty-string key. -/
def reqEmptyKeyByok : ResearchRequest :=
  { query := "hi", apiKey := some "", byokMode := true }

/-- A non-BYOK request carrying an empty-string key. -/
def reqEmptyKey : ResearchRequest :=
  { query := "hi", apiKey := some "", byokMode := false }

/-- A request with no key at all. -/
def reqNoKey : ResearchRequest := { query := "hi" }

/-- A request whose every selected id is unknown to the catalog. -/
def reqAllBogus : ResearchRequest :=
  { query := "hi", modelIds := some ["nope"], apiKey := some "k" }

/-- The fan-out call options of Haiku within `req2` — the call the isolation
gateway makes fail. -/
def isoOpts : GenOptions := callOptions req2 haikuCfg

/-- A gateway failing exactly the Haiku call of `req2` and succeeding on
every other call. -/
def gwIso : Gateway := fun opts => if opts = isoOpts then failOutcome else okOutcome

/-- The result value of the all-fail round over `reqHaiku`. -/
def allFailResult : ResearchResult :=
  { query := "hi", responses := fanOutResponses gwAllFail reqHaiku,
    synthesis := allFailedSynthesis, totalDurationMs := 7, modelCount := 1,
    successCount := 0, totalCost := none,
    timestamp := some "2026-01-01T00:00:00.000Z",
    orchestrator := some "anthropic/claude-sonnet-4.5" }

/-- The result value of the usage-free successful round over `reqHaiku`. -/
def resNoUsage1 : ResearchResult :=
  { query := "hi", responses := fanOutResponses gwOkNoUsage reqHaiku,
    synthesis := "Hello world!", totalDurationMs := 7, modelCount := 1,
    successCount := 1,
    totalCost := some (costTotal (fanOutResponses gwOkNoUsage reqHaiku)),
    timestamp := some "2026-01-01T00:00:00.000Z",
    orchestrator := some "Claude Sonnet 4.5" }

/-- The result value of the usage-free successful round over `req2`. -/
def resNoUsage2 : ResearchResult :=
  { query := "hi", responses := fanOutResponses gwOkNoUsage req2,
    synthesis := "Hello world!", totalDurationMs := 7, modelCount := 2,
    successCount := 2,
    totalCost := some (costTotal (fanOutResponses gwOkNoUsage req2)),
    timestamp := some "2026-01-01T00:00:00.000Z",
    orchestrator := some "Claude Sonnet 4.5" }

end Fx

namespace Research

/-- Rounding up a quarter: the natural ceiling of `n / 4` over `ℚ` is the
rounded-up natural division `(n + 3) / 4` that the pricing module computes. -/
theorem natCeil_div_four (n : ℕ) : ⌈(n : ℚ) / 4⌉₊ = (n + 3) / 4 := by
  have h1 : (n : ℚ) / 4 ≤ (⌈(n : ℚ) / 4⌉₊ : ℚ) := Nat.le_ceil _
  have h2 : (n : ℚ) ≤ (⌈(n : ℚ) / 4⌉₊ : ℚ) * 4 := by
    rw [← div_le_iff₀ (by norm_num : (0:ℚ) < 4)]; exact h1
  have h3 : n ≤ ⌈(n : ℚ) / 4⌉₊ * 4 := by exact_mod_cast h2
  have h4 : ⌈(n : ℚ) / 4⌉₊ ≤ (n + 3) / 4 := by
    rw [Nat.ceil_le, div_le_iff₀ (by norm_num : (0:ℚ) < 4)]
    have h5 : (n : ℕ) ≤ ((n + 3) / 4) * 4 := by omega
    exact_mod_cast h5
  omega

/-- A converted response keeps the id of its model. -/
theorem respOf_modelId (m : ModelConfig) (o : CallOutcome) :
    (respOf m o).modelId = m.id := by
  cases h : o.result <;> simp [respOf, h]

/-- Inversion of a returning run: the shape of any `ok` result of
`runResearch` in terms of the fan-out. -/
theorem runResearch_ok_inv (env : Env) (gw : Gateway) (request : ResearchRequest)
    (res : ResearchResult) (hok : runResearch env gw request = .ok res) :
    res.query = request.query ∧
    res.responses = fanOutResponses gw request ∧
    res.modelCount = (resolveModels request).length ∧
    res.successCount = (successfulOf gw request).length ∧
    (res.successCount = 0 →
      res.synthesis = allFailedSynthesis ∧ res.totalCost = none) ∧
    (res.successCount ≠ 0 →
      res.totalCost = some (costTotal (fanOutResponses gw request))) := by
  unfold runResearch runResearchT at hok
  by_cases h1 : strTruthy (resolveApiKey env request) = true
  · by_cases h2 : (resolveModels request).length = 0
    · simp [h1, h2] at hok
    · by_cases h3 : (successfulOf gw request).length = 0
      · simp only [h1, h2, h3, not_true, ite_true, ite_false, if_neg, if_pos,
          not_false_iff, Bool.not_eq_true] at hok
        cases hok
        exact ⟨rfl, rfl, rfl, h3.symm, fun _ => ⟨rfl, rfl⟩,
          fun hc => absurd rfl hc⟩
      · simp only [h1, h2, h3, not_true, ite_true, ite_false, if_neg, if_pos,
          not_false_iff, Bool.not_eq_true] at hok
        cases hg : (gw (synthOptions gw request)).result with
        | error e => rw [hg] at hok; cases hok
        | ok syn =>
          rw [hg] at hok
          cases hok
          exact ⟨rfl, rfl, rfl, rfl, fun hz => absurd hz h3, fun _ => rfl⟩
  · simp [h1] at hok

/-- Substring containment composes transitively. -/
theorem containsStr_trans (b m s : String) (h1 : containsStr b m)
    (h2 : containsStr m s) : containsStr b s := by
  obtain ⟨p1, q1, rfl⟩ := h1
  obtain ⟨p2, q2, rfl⟩ := h2
  exact ⟨p1 ++ p2, q2 ++ q1, by simp [String.append_assoc]⟩

/-- Substring containment survives prepending. -/
theorem containsStr_append_left (a b s : String) (h : containsStr b s) :
    containsStr (a ++ b) s := by
  obtain ⟨p, q, rfl⟩ := h
  exact ⟨a ++ p, q, by simp [String.append_assoc]⟩

/-- Substring containment survives appending. -/
theorem containsStr_append_right (b c s : String) (h : containsStr b s) :
    containsStr (b ++ c) s := by
  obtain ⟨p, q, rfl⟩ := h
  exact ⟨p, q ++ c, by simp [String.append_assoc]⟩

/-- Every element of a joined string list occurs in the join. -/
theorem joinSep_contains (sep : String) (l : List String) (x : String)
    (hx : x ∈ l) : containsStr (joinSep sep l) x := by
  induction l with
  | nil => cases hx
  | cons y ys ih =>
    cases hx with
    | head =>
      cases ys with
      | nil => exact ⟨"", "", by simp [joinSep, String.append_empty]⟩
      | cons z zs =>
        exact ⟨"", sep ++ joinSep sep (z :: zs),
          by simp [joinSep, String.append_assoc]⟩
    | tail _ hx =>
      cases ys with
      | nil => cases hx
      | cons z zs =>
        exact containsStr_append_left (y ++ sep) _ _ (ih hx)

/-- The synthesis prompt contains the content of every response rendered
into it. -/
theorem mkSynthesisPrompt_contains (query : String) (l : List ModelResponse)
    (r : ModelResponse) (hr : r ∈ l) :
    containsStr (mkSynthesisPrompt query l) r.content := by
  unfold mkSynthesisPrompt
  apply containsStr_append_right
  apply containsStr_append_left
  exact containsStr_trans _ _ _
    (joinSep_contains "\n\n---\n\n"
      (l.map (fun q => "### " ++ q.model ++ "\n" ++ q.content)) _
      (List.mem_map_of_mem _ hr))
    ⟨"### " ++ r.model ++ "\n", "",
      by simp [String.append_assoc, String.append_empty]⟩

/-- Shape invariant of a converted response: the success branch has no
error, the failure branch has an error and empty content, and the duration
is recorded either way. -/
theorem respOf_invariant (m : ModelConfig) (o : CallOutcome) :
    ((respOf m o).success = true → (respOf m o).error = none) ∧
    ((respOf m o).success = false →
      (respOf m o).error ≠ none ∧ (respOf m o).content = "") ∧
    (respOf m o).durationMs ≠ none := by
  cases h : o.result <;> simp [respOf, h]

/-- Every fan-out response is the conversion of its own model call. -/
theorem mem_fanOutResponses (gw : Gateway) (request : ResearchRequest)
    (r : ModelResponse) (hr : r ∈ fanOutResponses gw request) :
    ∃ m ∈ resolveModels request, r = respOf m (gw (callOptions request m)) := by
  obtain ⟨m, hm, rfl⟩ := List.mem_map.1 hr
  exact ⟨m, hm, rfl⟩

/-- When every id is in the catalog, catalog resolution keeps the id list
unchanged position by position. -/
theorem resolveModels_ids (ids : List String)
    (h : ∀ id ∈ ids, (ALL_MODELS.find? (fun m => m.id = id)).isSome) :
    ((ids.filterMap (fun id => ALL_MODELS.find? (fun m => m.id = id))).map
      (fun m => m.id)) = ids := by
  induction ids with
  | nil => rfl
  | cons a as ih =>
    have ha := h a (List.mem_cons_self a as)
    obtain ⟨m, hm⟩ := Option.isSome_iff_exists.1 ha
    have hid : m.id = a := by
      have h2 := List.find?_some hm
      simpa using h2
    simp [List.filterMap_cons, hm, hid,
      ih (fun id hid2 => h id (List.mem_cons_of_mem _ hid2))]

/-- Pointwise view of the fan-out: the response at index `i` is the
conversion of the model at index `i`, and of nothing else. -/
theorem fanOutResponses_getElem (gw : Gateway) (request : ResearchRequest)
    (i : ℕ) :
    (fanOutResponses gw request)[i]? =
      ((resolveModels request)[i]?).map
        (fun m => respOf m (gw (callOptions request m))) := by
  simp [fanOutResponses]

/-- Characterisation of the error test on gateway results. -/
theorem isError_iff (x : Except String GenResult) :
    isError x = true ↔ ∃ e, x = .error e := by
  cases x <;> simp [isError]

/-- Unfolded form of a positive-rate text cost estimate. -/
theorem estimateCostFromText_pos_eq (modelId i o : String) (p : PricingEntry)
    (hfind : Pricing.findModelPricing modelId = some p)
    (hnz : ¬(p.input = 0 ∧ p.output = 0)) :
    Pricing.estimateCostFromText modelId i o =
      some { cost := (((i.length + 3) / 4 : ℕ) : ℚ) / 1000000 * p.input +
               (((o.length + 3) / 4 : ℕ) : ℚ) / 1000000 * p.output,
             isEstimate := true } := by
  simp [Pricing.estimateCostFromText, hfind, hnz]

end Research

namespace Research

/-- C1: per-model failure isolation. If two gateways agree on every call
except one call `o`, and that call throws under the first gateway, then the
fan-out lists have equal length, every position whose model call differs
from `o` yields the identical response under both gateways, every position
whose model call is `o` yields the caught failure response (success false,
the thrown message as error, the call duration), and any `ok` result of
`runResearch` carries exactly the fan-out list. No single failing call
aborts or alters any other call of the round. -/
theorem c1_failure_isolation (request : ResearchRequest) (gw gw2 : Gateway)
    (o : GenOptions) (e : String)
    (hagree : ∀ opts, opts ≠ o → gw opts = gw2 opts)
    (hfail : (gw o).result = .error e) :
    (fanOutResponses gw request).length =
      (fanOutResponses gw2 request).length ∧
    (∀ (i : ℕ) (m : ModelConfig), (resolveModels request)[i]? = some m →
      callOptions request m ≠ o →
      (fanOutResponses gw request)[i]? = (fanOutResponses gw2 request)[i]?) ∧
    (∀ (i : ℕ) (m : ModelConfig), (resolveModels request)[i]? = some m →
      callOptions request m = o →
      (fanOutResponses gw request)[i]? =
        some { model := m.name, modelId := m.id, content := "",
               success := false, error := some e,
               durationMs := some (gw o).durationMs,
               usage := none, cost := none }) ∧
    (∀ env res, runResearch env gw request = .ok res →
      res.responses = fanOutResponses gw request) := by
  refine ⟨by simp [fanOutResponses], fun i m hm hne => ?_, fun i m hm ho => ?_,
    fun env res hok => ((runResearch_ok_inv env gw request res hok).2).1⟩
  · rw [fanOutResponses_getElem, fanOutResponses_getElem, hm]
    simp [hagree _ hne]
  · rw [fanOutResponses_getElem, hm]
    have h2 : respOf m (gw (callOptions request m)) =
        { model := m.name, modelId := m.id, content := "", success := false,
          error := some e, durationMs := some (gw o).durationMs,
          usage := none, cost := none } := by
      rw [ho]
      simp [respOf, hfail]
    simp [h2]

/-- C1 witness: in a two-model round where the Haiku call always throws and
every other call succeeds, the Flash response (index 1) is identical to its
response under an all-success gateway, and the Haiku response (index 0) is
the caught failure. -/
theorem c1_failure_isolation_witness :
    (fanOutResponses Fx.gwIso Fx.req2)[1]? =
      (fanOutResponses Fx.gwAllOk Fx.req2)[1]? ∧
    (fanOutResponses Fx.gwIso Fx.req2)[0]? =
      some { model := "Claude Haiku 4.5",
             modelId := "anthropic/claude-haiku-4.5:online", content := "",
             success := false, error := some "boom", durationMs := some 3,
             usage := none, cost := none } := by
  have hagree : ∀ opts, opts ≠ Fx.isoOpts →
      Fx.gwIso opts = Fx.gwAllOk opts := by
    intro opts hne
    simp [Fx.gwIso, Fx.gwAllOk, hne]
  have h := c1_failure_isolation Fx.req2 Fx.gwIso Fx.gwAllOk Fx.isoOpts "boom"
    hagree rfl
  exact ⟨h.2.1 1 Fx.flashCfg rfl (by decide), h.2.2.1 0 Fx.haikuCfg rfl rfl⟩

/-- C2 counterexample: the claim fails as stated when a selected id is not
in the registry. The request selects two ids, the first of them unknown;
the returned responses list has a single entry, so it does not have length
2 and its entry at index 0 is not the first requested id. -/
theorem c2_counterexample :
    Fx.reqBogus.modelIds =
      some ["bogus", "anthropic/claude-haiku-4.5:online"] ∧
    (runResearch Fx.env Fx.gwAllOk Fx.reqBogus).map
      (fun res => res.responses.map (fun r => r.modelId)) =
      .ok ["anthropic/claude-haiku-4.5:online"] := ⟨rfl, rfl⟩

/-- C2 amended: order preservation for registry-valid selections. For every
request whose non-empty `modelIds` list resolves entirely in the registry,
any returned result has one response per requested id, and the response ids
equal the requested ids position by position, for every gateway (hence
regardless of completion order). -/
theorem c2_order_preservation (env : Env) (gw : Gateway)
    (request : ResearchRequest) (ids : List String)
    (hids : request.modelIds = some ids) (hne : ids ≠ [])
    (hvalid : ∀ id ∈ ids, (ALL_MODELS.find? (fun m => m.id = id)).isSome)
    (res : ResearchResult) (hok : runResearch env gw request = .ok res) :
    res.responses.length = ids.length ∧
    res.responses.map (fun r => r.modelId) = ids := by
  have hresp := ((runResearch_ok_inv env gw request res hok).2).1
  have hrm : resolveModels request =
      ids.filterMap (fun id => ALL_MODELS.find? (fun m => m.id = id)) := by
    simp [resolveModels, resolveModelIds, hids, hne]
  have hmap : res.responses.map (fun r => r.modelId) = ids := by
    rw [hresp]
    unfold fanOutResponses
    rw [List.map_map]
    have h1 : ((fun r => r.modelId) ∘
        fun m => respOf m (gw (callOptions request m))) =
        fun m => m.id := by
      funext m
      exact respOf_modelId m (gw (callOptions request m))
    rw [h1, hrm, resolveModels_ids ids hvalid]
  refine ⟨?_, hmap⟩
  have h2 := congrArg List.length hmap
  simpa using h2

/-- C2 witness: a concrete two-model round returns two responses whose ids
match the requested ids in order. -/
theorem c2_order_preservation_witness :
    Fx.resNoUsage2.responses.length = 2 ∧
    Fx.resNoUsage2.responses.map (fun r => r.modelId) =
      ["anthropic/claude-haiku-4.5:online",
       "google/gemini-2.5-flash:online"] := by
  have h := c2_order_preservation Fx.env Fx.gwOkNoUsage Fx.req2 _ rfl
    (by decide) (by decide) Fx.resNoUsage2 rfl
  exact ⟨by simpa using h.1, h.2⟩

/-- C3: all-fail short-circuit. Whenever the key resolves, at least one
model resolves, and every fan-out call throws, `runResearch` returns (does
not throw) a result whose synthesis is the fixed failure string verbatim
and whose successCount is 0, and the gateway call trace is exactly the
fan-out calls — the synthesis call is never issued. -/
theorem c3_all_fail_short_circuit (env : Env) (gw : Gateway)
    (request : ResearchRequest)
    (hkey : strTruthy (resolveApiKey env request) = true)
    (hmodels : (resolveModels request).length ≠ 0)
    (hfail : ∀ m ∈ resolveModels request,
      isError (gw (callOptions request m)).result = true) :
    runResearchT env gw request =
      (.ok { query := request.query, responses := fanOutResponses gw request,
             synthesis := allFailedSynthesis,
             totalDurationMs := env.roundDurationMs,
             modelCount := (resolveModels request).length, successCount := 0,
             totalCost := none, timestamp := some env.timestampIso,
             orchestrator := some (resolveOrchestratorId request) },
       fanOutCalls request) := by
  have hnil : successfulOf gw request = [] := by
    rw [successfulOf, List.filter_eq_nil_iff]
    intro r hr
    obtain ⟨m, hm, rfl⟩ := mem_fanOutResponses gw request r hr
    obtain ⟨e, he⟩ := (isError_iff _).1 (hfail m hm)
    simp [respOf, he]
  unfold runResearchT
  simp [hkey, hmodels, hnil]

/-- C3 witness: the concrete all-fail round over a single model returns the
fixed-failure result and issues only the one fan-out call. -/
theorem c3_all_fail_short_circuit_witness :
    runResearchT Fx.env Fx.gwAllFail Fx.reqHaiku =
      (.ok Fx.allFailResult, fanOutCalls Fx.reqHaiku) := by
  have h := c3_all_fail_short_circuit Fx.env Fx.gwAllFail Fx.reqHaiku rfl
    (by decide) (by decide)
  exact h

/-- C4: vision fallback in prompt building. For every request with at least
one attached image and every model: a model without vision support gets a
plain-text user message consisting of the exact notice
"[Note: N image(s) attached but not visible to this model]" followed by the
original query, with no image parts; a model with vision support gets a
user message whose content is a text part holding the query followed by one
image part per attached image, encoded as a data URI of its mime type and
base64 payload. -/
theorem c4_vision_fallback (request : ResearchRequest) (model : ModelConfig)
    (imgs : List ResearchImage) (himgs : request.images = some imgs)
    (hne : imgs ≠ []) :
    (model.supportsVision = false →
      buildMessages request model =
        [{ role := "system", content := .str RESEARCH_SYSTEM_PROMPT },
         { role := "user", content := .str
             ("[Note: " ++ toString imgs.length ++
              " image(s) attached but not visible to this model]\n\n" ++
              request.query) }]) ∧
    (model.supportsVision = true →
      buildMessages request model =
        [{ role := "system", content := .str RESEARCH_SYSTEM_PROMPT },
         { role := "user", content := .parts
             (.text request.query ::
               imgs.map (fun img =>
                 .image ("data:" ++ img.mimeType ++ ";base64," ++
                   img.base64))) }]) := by
  have himg : hasImages request = true := by
    simp [hasImages, himgs, List.length_pos, hne]
  constructor
  · intro hv
    simp [buildMessages, himg, hv, himgs]
  · intro hv
    simp [buildMessages, himg, hv, himgs]

/-- C4 witness: with two images attached, the non-vision DeepSeek R1 model
gets the pure-text notice message with no image parts, while the
vision-capable Haiku model gets the query text part followed by the two
image parts as data URIs. -/
theorem c4_vision_fallback_witness :
    buildMessages Fx.req2Img Fx.r1Cfg =
      [{ role := "system", content := .str RESEARCH_SYSTEM_PROMPT },
       { role := "user", content := .str
           ("[Note: 2 image(s) attached but not visible to this model]\n\nwhat is this") }] ∧
    buildMessages Fx.req2Img Fx.haikuCfg =
      [{ role := "system", content := .str RESEARCH_SYSTEM_PROMPT },
       { role := "user", content := .parts
           [.text "what is this",
            .image "data:image/png;base64,AAAA",
            .image "data:image/jpeg;base64,BBBB"] }] := by
  constructor
  · exact (c4_vision_fallback Fx.req2Img Fx.r1Cfg _ rfl (by decide)).1 rfl
  · exact (c4_vision_fallback Fx.req2Img Fx.haikuCfg _ rfl (by decide)).2 rfl

/-- C5: pre-flight failures precede all upstream calls. When the request
has no key and either BYOK is set or the server has no default key,
`runResearch` throws the missing-credential error before any gateway call
(for every gateway, with an empty call trace); when the key resolves but
the registry-filtered model list is empty, it throws the no-valid-models
error, again with an empty call trace. -/
theorem c5_preflight_failures (env : Env) (gw : Gateway)
    (request : ResearchRequest) :
    (request.apiKey = none →
      (request.byokMode = true ∨ env.openrouterApiKey = none) →
      runResearchT env gw request = (.error missingKeyError, [])) ∧
    (strTruthy (resolveApiKey env request) = true →
      resolveModels request = [] →
      runResearchT env gw request = (.error noValidModelsError, [])) := by
  constructor
  · intro hk hcase
    have h1 : resolveApiKey env request = none := by
      rcases hcase with hb | he
      · simp [resolveApiKey, strTruthy, hk, hb]
      · cases hbv : request.byokMode <;>
          simp [resolveApiKey, strTruthy, hk, hbv, he]
    unfold runResearchT
    simp [h1, strTruthy]
  · intro hkey hm
    unfold runResearchT
    simp [hkey, hm]

/-- C5 witness: a keyless request on a deployment without a server key
throws the missing-credential error with no gateway call; a keyed request
whose only selected id is unknown throws the no-valid-models error with no
gateway call. -/
theorem c5_preflight_failures_witness :
    runResearchT Fx.envNoKey Fx.gwAllOk Fx.reqNoKey =
      (.error missingKeyError, []) ∧
    runResearchT Fx.env Fx.gwAllOk Fx.reqAllBogus =
      (.error noValidModelsError, []) :=
  ⟨(c5_preflight_failures Fx.envNoKey Fx.gwAllOk Fx.reqNoKey).1 rfl
     (Or.inr rfl),
   (c5_preflight_failures Fx.env Fx.gwAllOk Fx.reqAllBogus).2 rfl rfl⟩

/-- C6 counterexample: the claimed fall-back to `estimateCostFromText` does
not happen. In a round whose single model succeeds without usage data, the
response cost is 0 (from `calculateCost` on absent usage) and carries no
estimate marker, while `estimateCostFromText` on the round texts returns
the flagged non-zero estimate 1/250000 — so the cost was not computed by
`estimateCostFromText`. -/
theorem c6_counterexample :
    (runResearch Fx.env Fx.gwOkNoUsage Fx.reqHaiku).map
      (fun res => res.responses.map (fun r => (r.success, r.usage, r.cost))) =
      .ok [(true, none, some 0)] ∧
    Pricing.estimateCostFromText "anthropic/claude-haiku-4.5:online" "hi"
      "Hello world!" = some { cost := 1/250000, isEstimate := true } ∧
    (1 : ℚ)/250000 ≠ 0 := by
  refine ⟨rfl, ?_, by norm_num⟩
  rw [estimateCostFromText_pos_eq "anthropic/claude-haiku-4.5:online" "hi"
    "Hello world!" ⟨0.25, 1.25⟩ rfl (by norm_num)]
  have e1 : ("hi".length + 3) / 4 = 1 := rfl
  have e2 : ("Hello world!".length + 3) / 4 = 3 := rfl
  rw [e1, e2]
  norm_num

/-- C6 amended: for every successful response of a returned round, the cost
is `calculateCost` applied to the model id and returned usage of that response;
in particular when usage is absent the cost is 0. `estimateCostFromText` is
never invoked by `runResearch` and responses carry no estimate flag. -/
theorem c6_cost_from_usage (env : Env) (gw : Gateway)
    (request : ResearchRequest) (res : ResearchResult)
    (hok : runResearch env gw request = .ok res)
    (r : ModelResponse) (hr : r ∈ res.responses) (hs : r.success = true) :
    r.cost = some (calculateCost r.modelId r.usage) ∧
    (r.usage = none → r.cost = some 0) := by
  rw [((runResearch_ok_inv env gw request res hok).2).1] at hr
  obtain ⟨m, hm, rfl⟩ := mem_fanOutResponses gw request r hr
  cases hg : (gw (callOptions request m)).result with
  | error e => simp [respOf, hg] at hs
  | ok g =>
    constructor
    · simp [respOf, hg]
    · intro hu
      simp [respOf, hg] at hu ⊢
      simp [calculateCost, hu]

/-- C6 witness: the successful Haiku response of the usage-free round has
cost 0. -/
theorem c6_cost_from_usage_witness :
    (respOf Fx.haikuCfg Fx.okNoUsageOutcome).cost = some 0 := by
  have h := c6_cost_from_usage Fx.env Fx.gwOkNoUsage Fx.reqHaiku
    Fx.resNoUsage1 rfl (respOf Fx.haikuCfg Fx.okNoUsageOutcome)
    (List.mem_singleton.2 rfl) rfl
  exact h.2 rfl

/-- C7: synthesis prompt scope. Whenever the key resolves and at least one
model succeeds, the round issues exactly one synthesis call after the
fan-out calls; its options carry maxTokens 1500 and a single user message
whose text is the synthesis prompt built from the truncated query and the
successful responses only (each rendered as a markdown section headed by
its display name, joined by horizontal rules, followed by the fixed
instructions) — so no failed response content or error text enters it —
and that prompt contains the content of every successful response. -/
theorem c7_synthesis_prompt_scope (env : Env) (gw : Gateway)
    (request : ResearchRequest)
    (hkey : strTruthy (resolveApiKey env request) = true)
    (hsucc : (successfulOf gw request).length ≠ 0) :
    (runResearchT env gw request).2 =
      fanOutCalls request ++ [synthOptions gw request] ∧
    (synthOptions gw request).maxTokens = 1500 ∧
    (synthOptions gw request).messages =
      [{ role := "user", content := .str
          (mkSynthesisPrompt request.query (successfulOf gw request)) }] ∧
    ∀ r ∈ successfulOf gw request,
      containsStr (mkSynthesisPrompt request.query (successfulOf gw request))
        r.content := by
  have hmne : (resolveModels request).length ≠ 0 := by
    intro h0
    apply hsucc
    have hf : fanOutResponses gw request = [] := by
      unfold fanOutResponses
      rw [List.length_eq_zero] at h0
      simp [h0]
    simp [successfulOf, hf]
  refine ⟨?_, rfl, rfl, fun r hr => mkSynthesisPrompt_contains _ _ _ hr⟩
  unfold runResearchT
  cases hg : (gw (synthOptions gw request)).result with
  | error e => simp [hkey, hmne, hsucc, hg]
  | ok s => simp [hkey, hmne, hsucc, hg]

/-- C7 witness: in the round where Haiku fails and Flash succeeds, the call
trace is the two fan-out calls followed by the single synthesis call with
maxTokens 1500, and the synthesis prompt over the successful subset
contains the Flash content. -/
theorem c7_synthesis_prompt_scope_witness :
    (runResearchT Fx.env Fx.gwIso Fx.req2).2 =
      fanOutCalls Fx.req2 ++ [synthOptions Fx.gwIso Fx.req2] ∧
    (synthOptions Fx.gwIso Fx.req2).maxTokens = 1500 ∧
    containsStr
      (mkSynthesisPrompt Fx.req2.query (successfulOf Fx.gwIso Fx.req2))
      "ok text" := by
  have h := c7_synthesis_prompt_scope Fx.env Fx.gwIso Fx.req2 rfl (by decide)
  refine ⟨h.1, h.2.1, ?_⟩
  have hset : successfulOf Fx.gwIso Fx.req2 =
      [respOf Fx.flashCfg Fx.okOutcome] := rfl
  have h2 := h.2.2.2 (respOf Fx.flashCfg Fx.okOutcome)
    (hset ▸ List.mem_singleton.2 rfl)
  exact h2

/-- C8 counterexample: in the all-fail round, the returned result carries
no totalCost at all (the field is absent), while the per-response costs sum
to 0 — so the claimed equation totalCost = sum over responses fails on
all-fail results. -/
theorem c8_counterexample :
    (runResearch Fx.env Fx.gwAllFail Fx.reqHaiku).map
      (fun res => res.totalCost) = .ok none ∧
    (runResearch Fx.env Fx.gwAllFail Fx.reqHaiku).map
      (fun res => res.responses.map (fun r => r.cost)) = .ok [none] ∧
    costTotal [{ model := "Claude Haiku 4.5",
                 modelId := "anthropic/claude-haiku-4.5:online",
                 content := "", success := false, error := some "boom",
                 durationMs := some 3, usage := none, cost := none }] = 0 ∧
    (none : Option ℚ) ≠ some 0 := by
  refine ⟨rfl, rfl, ?_, by simp⟩
  simp [costTotal]

/-- C8 amended: result-data invariant of every returned round. The
successCount equals the number of responses with success true; when at
least one model succeeded the totalCost is the fold of per-response costs
with absent costs contributing 0 (failed responses have no cost); in the
all-fail case totalCost is absent; and every response satisfies: success
implies no error field, failure implies an error field and empty content,
and the duration is always populated. -/
theorem c8_result_invariants (env : Env) (gw : Gateway)
    (request : ResearchRequest) (res : ResearchResult)
    (hok : runResearch env gw request = .ok res) :
    res.successCount = (res.responses.filter (fun r => r.success)).length ∧
    (res.successCount ≠ 0 → res.totalCost = some (costTotal res.responses)) ∧
    (res.successCount = 0 → res.totalCost = none) ∧
    ∀ r ∈ res.responses,
      (r.success = true → r.error = none) ∧
      (r.success = false → r.error ≠ none ∧ r.content = "") ∧
      r.durationMs ≠ none := by
  obtain ⟨hq, hresp, hmc, hsc, hzero, hnz⟩ :=
    runResearch_ok_inv env gw request res hok
  refine ⟨?_, ?_, fun h0 => (hzero h0).2, fun r hr => ?_⟩
  · rw [hsc, hresp]; rfl
  · intro hne; rw [hnz hne, hresp]
  · rw [hresp] at hr
    obtain ⟨m, hm, rfl⟩ := mem_fanOutResponses gw request r hr
    exact respOf_invariant m _

/-- C8 witness: the concrete all-fail result satisfies the amended
invariant — successCount matches the success filter and totalCost is
absent. -/
theorem c8_result_invariants_witness :
    Fx.allFailResult.successCount =
      (Fx.allFailResult.responses.filter (fun r => r.success)).length ∧
    Fx.allFailResult.totalCost = none := by
  have h := c8_result_invariants Fx.env Fx.gwAllFail Fx.reqHaiku
    Fx.allFailResult rfl
  exact ⟨h.1, h.2.2.1 rfl⟩

/-- C9: the `estimateCostFromText` contract. For every model id and texts:
an unknown model yields none; a genuinely free model (both rates 0) yields
none; otherwise the result is the flagged estimate whose cost is
ceil(inputChars/4)/1e6 times the input rate plus ceil(outputChars/4)/1e6
times the output rate. -/
theorem c9_estimateCostFromText_contract (modelId inputText outputText : String) :
    (Pricing.findModelPricing modelId = none →
      Pricing.estimateCostFromText modelId inputText outputText = none) ∧
    (∀ p, Pricing.findModelPricing modelId = some p →
      p.input = 0 → p.output = 0 →
      Pricing.estimateCostFromText modelId inputText outputText = none) ∧
    (∀ p, Pricing.findModelPricing modelId = some p →
      ¬(p.input = 0 ∧ p.output = 0) →
      Pricing.estimateCostFromText modelId inputText outputText =
        some { cost := (⌈(inputText.length : ℚ) / 4⌉₊ : ℚ) / 1000000 * p.input +
                 (⌈(outputText.length : ℚ) / 4⌉₊ : ℚ) / 1000000 * p.output,
               isEstimate := true }) := by
  refine ⟨fun h => by simp [Pricing.estimateCostFromText, h],
    fun p hp h0 h1 => by simp [Pricing.estimateCostFromText, hp, h0, h1],
    fun p hp hnz => by
      simp [Pricing.estimateCostFromText, hp, hnz, natCeil_div_four]⟩

/-- C9 witness: an unknown model gives none, the free Llama 4 Maverick
model gives none, and Haiku gives the flagged ceiling-based estimate. -/
theorem c9_estimateCostFromText_contract_witness :
    Pricing.estimateCostFromText "nope" "ab" "cd" = none ∧
    Pricing.estimateCostFromText "meta-llama/llama-4-maverick:online" "ab" "cd"
      = none ∧
    Pricing.estimateCostFromText "anthropic/claude-haiku-4.5:online" "hi"
      "Hello world!" =
      some { cost :=
               (⌈(("hi".length : ℕ) : ℚ) / 4⌉₊ : ℚ) / 1000000 * (0.25 : ℚ) +
               (⌈(("Hello world!".length : ℕ) : ℚ) / 4⌉₊ : ℚ) / 1000000 *
                 (1.25 : ℚ),
             isEstimate := true } :=
  ⟨(c9_estimateCostFromText_contract "nope" "ab" "cd").1 rfl,
   (c9_estimateCostFromText_contract "meta-llama/llama-4-maverick:online"
     "ab" "cd").2.1 ⟨0, 0⟩ rfl rfl rfl,
   (c9_estimateCostFromText_contract "anthropic/claude-haiku-4.5:online"
     "hi" "Hello world!").2.2 ⟨0.25, 1.25⟩ rfl (by norm_num)⟩

/-- C10: an empty-string request key is treated exactly as an absent key.
With BYOK set, a request whose key is the empty string makes the whole run
throw the missing-credential error; without BYOK the resolution silently
substitutes the server-default key; and the caller key is used exactly when
it is a non-empty string. -/
theorem c10_empty_key_is_absent (env : Env) (gw : Gateway)
    (request : ResearchRequest) :
    (request.apiKey = some "" → request.byokMode = true →
      runResearchT env gw request = (.error missingKeyError, [])) ∧
    (request.apiKey = some "" → request.byokMode = false →
      resolveApiKey env request = env.openrouterApiKey) ∧
    (∀ k, request.apiKey = some k → k ≠ "" →
      resolveApiKey env request = some k) := by
  refine ⟨fun hk hb => ?_, fun hk hb => ?_, fun k hk hne => ?_⟩
  · have h1 : resolveApiKey env request = none := by
      simp [resolveApiKey, strTruthy, hk, hb]
    unfold runResearchT
    simp [h1, strTruthy]
  · simp [resolveApiKey, strTruthy, hk, hb]
  · simp [resolveApiKey, strTruthy, hk, hne]

/-- C10 witness: the concrete BYOK request with an empty key throws with no
gateway call; the concrete non-BYOK request with an empty key resolves to
the server key; the request with key "k" resolves to "k". -/
theorem c10_empty_key_is_absent_witness :
    runResearchT Fx.env Fx.gwAllOk Fx.reqEmptyKeyByok =
      (.error missingKeyError, []) ∧
    resolveApiKey Fx.env Fx.reqEmptyKey = some "server-key" ∧
    resolveApiKey Fx.env Fx.reqHaiku = some "k" := by
  refine ⟨(c10_empty_key_is_absent Fx.env Fx.gwAllOk Fx.reqEmptyKeyByok).1
    rfl rfl, ?_, ?_⟩
  · exact (c10_empty_key_is_absent Fx.env Fx.gwAllOk Fx.reqEmptyKey).2.1 rfl rfl
  · exact (c10_empty_key_is_absent Fx.env Fx.gwAllOk Fx.reqHaiku).2.2 "k" rfl
      (by decide)

end Research
